import Mathlib

/-!
Shallow embedding of the `keepalived` package of sensu-go (keepalive
liveness monitoring): data model, monitor registry, per-event worker
processing, store recovery, orchestrator lifecycle and the monitor
update/failure callbacks.  External collaborators (store, message bus,
deregistrar) are modelled as oracles: their results are inputs, and the
calls issued to them are recorded in explicit result structures.
Go `time.Duration` is modelled as `Int` nanoseconds, Unix timestamps as
`Int` seconds, exactly as the source manipulates them.
-/

namespace Keepalived

/-! ### Constants (source lines 14-38) -/

/-- DefaultHandlerCount is the default number of goroutines dedicated to
handling keepalive events. -/
def DefaultHandlerCount : Nat := 10

/-- DefaultKeepaliveTimeout is the amount of time (seconds) a keepalive is
considered valid for. -/
def DefaultKeepaliveTimeout : Nat := 120

/-- KeepaliveCheckName is the name of the check created on keepalive timeout. -/
def KeepaliveCheckName : String := "keepalive"

/-- KeepaliveHandlerName is the name of the handler executed on keepalive
timeout. -/
def KeepaliveHandlerName : String := "keepalive"

/-- RegistrationCheckName is the name of the check created when an entity
sends a keepalive and does not yet exist in the store. -/
def RegistrationCheckName : String := "registration"

/-- RegistrationHandlerName is the name of the handler executed when a
registration event is passed downstream. -/
def RegistrationHandlerName : String := "registration"

/-- Go's `time.Second` expressed in `time.Duration` units (nanoseconds). -/
def second : Int := 1000000000

/-- Modelled from the spec: `types.EntityAgentClass`, the entity class
string `"agent"` (the `types` package file defining it is not part of the
sources; the spec fixes the value). -/
def EntityAgentClass : String := "agent"

/-! ### Data model (`types` package as consumed by the core) -/

/-- The fields of `types.Entity` consumed by keepalived. -/
structure Entity where
  id : String
  entityClass : String
  organization : String
  environment : String
  keepaliveTimeout : Nat
  deregister : Bool
  lastSeen : Int
deriving DecidableEq

/-- The fields of `types.Check` authored by keepalived. -/
structure Check where
  name : String
  interval : Nat
  handlers : List String
  environment : String
  organization : String
  status : Nat
deriving DecidableEq

/-- `types.Event`: both `Entity` and `Check` are pointers in Go, hence
`Option` here. -/
structure Event where
  timestamp : Int
  entity : Option Entity
  check : Option Check
deriving DecidableEq

/-- `types.KeepaliveRecord`: persisted failing-keepalive marker;
`time` is the absolute Unix-seconds deadline. -/
structure KeepaliveRecord where
  entityID : String
  organization : String
  environment : String
  time : Int
deriving DecidableEq

/-- The message-bus topics used by keepalived. -/
inductive Topic where
  | keepalive
  | event
  | eventRaw
deriving DecidableEq

/-! ### Monitor collaborator -/

/-- Modelled from the spec: `monitor.Interface` / `monitor.New` (the
`monitor` package is not part of the sources).  Per the contract,
`GetTimeout` returns the configured quiet period, `IsStopped` reports
whether the monitor was stopped, and the update/failure handlers are
always the orchestrator itself, so they are not represented as data. -/
structure Monitor where
  entity : Option Entity
  event : Option Event
  timeout : Int
  stopped : Bool
deriving DecidableEq

/-- Modelled from the spec: the monitor factory
`new(entity, event, timeout, updateHandler, failureHandler)`; a freshly
created monitor is running (not stopped) with the configured timeout. -/
def monitorNew (entity : Option Entity) (event : Option Event) (timeout : Int) : Monitor :=
  { entity := entity, event := event, timeout := timeout, stopped := false }

/-! ### Monitor registry (the `monitors map[string]monitor.Interface`) -/

/-- The registry `monitors : map[string]monitor.Interface`, modelled as an
association list with map semantics. -/
abbrev Registry := List (String × Monitor)

/-- Go map read `mon, ok := k.monitors[id]`. -/
def lookupReg (reg : Registry) (id : String) : Option Monitor :=
  match reg with
  | [] => none
  | (k, v) :: rest => if k = id then some v else lookupReg rest id

/-- Go map write `k.monitors[id] = m` (replaces an existing binding). -/
def insertReg (reg : Registry) (id : String) (m : Monitor) : Registry :=
  match reg with
  | [] => [(id, m)]
  | (k, v) :: rest => if k = id then (id, m) :: rest else (k, v) :: insertReg rest id m

/-! ### Event construction helpers (source lines 282-316) -/

/-- `createKeepaliveEvent`: keepalive check with status 1, interval equal to
the entity's KeepaliveTimeout, handler "keepalive"; timestamp `now`. -/
def createKeepaliveEvent (now : Int) (entity : Entity) : Event :=
  { timestamp := now
    entity := some entity
    check := some
      { name := KeepaliveCheckName
        interval := entity.keepaliveTimeout
        handlers := [KeepaliveHandlerName]
        environment := entity.environment
        organization := entity.organization
        status := 1 } }

/-- `createRegistrationEvent`: registration check with status 1, interval
equal to the entity's KeepaliveTimeout, handler "registration". -/
def createRegistrationEvent (now : Int) (entity : Entity) : Event :=
  { timestamp := now
    entity := some entity
    check := some
      { name := RegistrationCheckName
        interval := entity.keepaliveTimeout
        handlers := [RegistrationHandlerName]
        environment := entity.environment
        organization := entity.organization
        status := 1 } }

/-- Go `event.Check.Status = s` (no-op impossible here: callers always have
a check present, set by the constructors above). -/
def setCheckStatus (e : Event) (s : Nat) : Event :=
  { e with check := e.check.map (fun c => { c with status := s }) }

/-! ### Monitor synchronisation (source lines 221-235, the locked region of
`processKeepalives`) -/

/-- Result of the locked monitor-synchronisation region: the updated
registry, the monitor chosen for the event (`mon` after both `if`s), and
the monitors on which `Stop()` was invoked during the region. -/
structure SyncResult where
  registry : Registry
  monitor : Monitor
  stoppedMonitors : List Monitor
deriving DecidableEq

/-- The locked region of `processKeepalives`:
`mon, ok := k.monitors[entity.ID]`;
`timeout := time.Duration(entity.KeepaliveTimeout) * time.Second`;
install a fresh monitor if absent or stopped; then stop and replace if the
configured timeout differs from `timeout`. -/
def syncMonitor (reg : Registry) (entity : Entity) : SyncResult :=
  let timeout : Int := (entity.keepaliveTimeout : Int) * second
  let step1 : Monitor × Registry :=
    match lookupReg reg entity.id with
    | none =>
      let m := monitorNew (some entity) none timeout
      (m, insertReg reg entity.id m)
    | some mon =>
      if mon.stopped then
        let m := monitorNew (some entity) none timeout
        (m, insertReg reg entity.id m)
      else
        (mon, reg)
  let mon := step1.1
  let reg1 := step1.2
  if mon.timeout ≠ timeout then
    let m := monitorNew (some entity) none timeout
    { registry := insertReg reg1 entity.id m
      monitor := m
      stoppedMonitors := [mon] }
  else
    { registry := reg1, monitor := mon, stoppedMonitors := [] }

/-! ### Entity registration (source lines 243-261) -/

/-- Modelled from the spec: `types.Entity.Validate` (the entity model file
of the `types` package is not part of the sources).  The spec requires a
non-empty ID and a positive keepalive timeout. -/
def validateEntity (entity : Entity) : Option String :=
  if entity.id = "" then some "entity id must not be empty"
  else if entity.keepaliveTimeout = 0 then some "keepalive timeout must be positive"
  else none

/-- Store and bus responses consumed by `handleEntityRegistration`:
the result of `GetEntityByID` and the error, if any, of `Publish`. -/
structure RegOracle where
  getEntity : Except String (Option Entity)
  publishErr : Option String

/-- Observable outcome of `handleEntityRegistration`: returned error,
number of `GetEntityByID` calls, and the publishes issued. -/
structure RegResult where
  error : Option String
  lookups : Nat
  published : List (Topic × Event)
deriving DecidableEq

/-- `handleEntityRegistration`: return nil unless the entity class is
"agent"; look the entity up; on a lookup error return it; if absent,
publish a registration event on the event topic and return the publish
result. -/
def handleEntityRegistration (now : Int) (entity : Entity) (o : RegOracle) : RegResult :=
  if entity.entityClass ≠ EntityAgentClass then
    { error := none, lookups := 0, published := [] }
  else
    match o.getEntity with
    | .error e => { error := some e, lookups := 1, published := [] }
    | .ok (some _) => { error := none, lookups := 1, published := [] }
    | .ok none =>
      { error := o.publishErr
        lookups := 1
        published := [(Topic.event, createRegistrationEvent now entity)] }

/-! ### Worker processing of one inbound message (source lines 199-240) -/

/-- A value drawn from the inbound `chan interface{}`: either an `*Event`
or something else (the defensive mistype path). -/
inductive Msg where
  | nonEvent
  | ev (e : Event)
deriving DecidableEq

/-- Observable outcome of one iteration of the worker loop body:
whether the message was dropped (logged and skipped), the registry after
monitor synchronisation, the registration step's outcome, the
synchronisation outcome, and the event dispatched to `mon.HandleUpdate`. -/
structure ProcResult where
  dropped : Bool
  registry : Registry
  regResult : Option RegResult
  synced : Option SyncResult
  updateDispatched : Option Event
deriving DecidableEq

/-- One iteration of the `processKeepalives` loop body: type-assert the
message, require a non-nil entity, validate it, perform registration (its
error only logged), synchronise the monitor registry under the lock, then
dispatch `mon.HandleUpdate(event)`. -/
def processKeepaliveMsg (now : Int) (reg : Registry) (msg : Msg) (o : RegOracle) :
    ProcResult :=
  match msg with
  | .nonEvent =>
    { dropped := true, registry := reg, regResult := none, synced := none
      updateDispatched := none }
  | .ev e =>
    match e.entity with
    | none =>
      { dropped := true, registry := reg, regResult := none, synced := none
        updateDispatched := none }
    | some entity =>
      match validateEntity entity with
      | some _ =>
        { dropped := true, registry := reg, regResult := none, synced := none
          updateDispatched := none }
      | none =>
        let rr := handleEntityRegistration now entity o
        let sr := syncMonitor reg entity
        { dropped := false, registry := sr.registry, regResult := some rr
          synced := some sr, updateDispatched := some e }

/-! ### HandleUpdate callback (source lines 320-337) -/

/-- Store and bus responses consumed by `HandleUpdate`. -/
structure UpdateOracle where
  deleteErr : Option String
  updateErr : Option String
  publishErr : Option String
deriving DecidableEq

/-- Observable outcome of `HandleUpdate`: returned error, whether
`DeleteFailingKeepalive` was called, whether `entity.LastSeen` was
assigned, the entity passed to `UpdateEntity` (if called), and the
publishes issued. -/
structure UpdateResult where
  error : Option String
  deleteCalled : Bool
  lastSeenSet : Bool
  updateCalledWith : Option Entity
  published : List (Topic × Event)
deriving DecidableEq

/-- `HandleUpdate`: delete the failing-keepalive record (propagating the
error), set `entity.LastSeen = event.Timestamp`, persist the entity
(propagating the error), then publish a status-0 keepalive event on the
raw-events topic.  `none` models the nil-pointer fault on a nil entity. -/
def handleUpdate (now : Int) (e : Event) (o : UpdateOracle) : Option UpdateResult :=
  match e.entity with
  | none => none
  | some entity =>
    match o.deleteErr with
    | some err =>
      some { error := some err, deleteCalled := true, lastSeenSet := false
             updateCalledWith := none, published := [] }
    | none =>
      let entity1 := { entity with lastSeen := e.timestamp }
      match o.updateErr with
      | some err =>
        some { error := some err, deleteCalled := true, lastSeenSet := true
               updateCalledWith := some entity1, published := [] }
      | none =>
        let ev := setCheckStatus (createKeepaliveEvent now entity1) 0
        some { error := o.publishErr, deleteCalled := true, lastSeenSet := true
               updateCalledWith := some entity1
               published := [(Topic.eventRaw, ev)] }

/-! ### HandleFailure callback (source lines 341-365) -/

/-- Collaborator responses consumed by `HandleFailure`: the result of
`Deregistration.Deregister`, of `Publish`, and of
`UpdateFailingKeepalive`. -/
structure FailureOracle where
  deregisterErr : Option String
  publishErr : Option String
  updateFailingErr : Option String
deriving DecidableEq

/-- Observable outcome of `HandleFailure`: returned error, number of
`Deregister` calls, publishes issued, and the failing-keepalive record
written (entity and absolute Unix-seconds deadline), if any. -/
structure FailureResult where
  error : Option String
  deregisterCalls : Nat
  published : List (Topic × Event)
  recordWritten : Option (Entity × Int)
deriving DecidableEq

/-- `HandleFailure`: if the entity has `Deregister` set, call the
deregisterer and return its result; otherwise publish a status-1
keepalive event on the raw-events topic (returning a publish error), then
write a failing-keepalive record with deadline
`now + entity.KeepaliveTimeout` and return the store result. -/
def handleFailure (now : Int) (entity : Entity) (o : FailureOracle) : FailureResult :=
  if entity.deregister then
    { error := o.deregisterErr, deregisterCalls := 1, published := []
      recordWritten := none }
  else
    let ev := setCheckStatus (createKeepaliveEvent now entity) 1
    match o.publishErr with
    | some err =>
      { error := some err, deregisterCalls := 0
        published := [(Topic.eventRaw, ev)], recordWritten := none }
    | none =>
      { error := o.updateFailingErr, deregisterCalls := 0
        published := [(Topic.eventRaw, ev)]
        recordWritten := some (entity, now + (entity.keepaliveTimeout : Int)) }

/-! ### Recovery from the store (source lines 142-179) -/

/-- How a run of `initFromStore` aborts: a store error returned to the
caller, or the nil-pointer fault that Go would hit reading
`event.Check.Status` on an event without a check. -/
inductive KError where
  | storeErr (e : String)
  | nilPanic
deriving DecidableEq

/-- The loop body of `initFromStore` for one failing-keepalive record,
given the store's answer to
`GetEventByEntityCheck(ctx, record.EntityID, "keepalive")`:
propagate a lookup error; skip if there is no event; skip if the event's
check status is 0; otherwise install a monitor for the record's entity ID
whose timeout is `time.Duration(int64(record.Time) - now)` clamped at 0
(a raw nanosecond count, exactly as the source computes it). -/
def initStep (now : Int) (rec : KeepaliveRecord) (res : Except String (Option Event))
    (reg : Registry) : Except KError Registry :=
  match res with
  | .error e => .error (.storeErr e)
  | .ok none => .ok reg
  | .ok (some ev) =>
    match ev.check with
    | none => .error .nilPanic
    | some c =>
      if c.status = 0 then .ok reg
      else
        let d0 : Int := rec.time - now
        let d : Int := if d0 < 0 then 0 else d0
        .ok (insertReg reg rec.entityID (monitorNew ev.entity none d))

/-- The loop of `initFromStore` over the list of failing-keepalive
records; `lookup` is the store's answer for each record. -/
def initLoop (now : Int) (recs : List KeepaliveRecord)
    (lookup : KeepaliveRecord → Except String (Option Event)) (reg : Registry) :
    Except KError Registry :=
  match recs with
  | [] => .ok reg
  | r :: rest =>
    match initStep now r (lookup r) reg with
    | .error e => .error e
    | .ok reg1 => initLoop now rest lookup reg1

/-- `initFromStore`: read all failing-keepalive records (propagating the
error) and run the recovery loop starting from the empty registry. -/
def initFromStore (now : Int) (getFailing : Except String (List KeepaliveRecord))
    (lookup : KeepaliveRecord → Except String (Option Event)) : Except KError Registry :=
  match getFailing with
  | .error e => .error (.storeErr e)
  | .ok recs => initLoop now recs lookup []

/-! ### Start (source lines 96-116) -/

/-- Observable outcome of `Start`: the returned error, whether the
subscription was created and later cancelled, whether the worker pool and
the sweeper were launched, and the registry built by recovery. -/
structure StartResult where
  error : Option String
  subscribed : Bool
  subscriptionCancelled : Bool
  workersStarted : Bool
  sweeperStarted : Bool
  registry : Registry
deriving DecidableEq

/-- `Start`: subscribe to the keepalive topic (returning the error on
failure), run `initFromStore` (on failure cancel the just-created
subscription — the cancellation error is only logged — and return the
recovery error), then launch the workers and the monitor sweeper.
`none` models the nil-check panic inside recovery. -/
def start (subscribeErr : Option String) (now : Int)
    (getFailing : Except String (List KeepaliveRecord))
    (lookup : KeepaliveRecord → Except String (Option Event)) : Option StartResult :=
  match subscribeErr with
  | some e =>
    some { error := some e, subscribed := false, subscriptionCancelled := false
           workersStarted := false, sweeperStarted := false, registry := [] }
  | none =>
    match initFromStore now getFailing lookup with
    | .error (.storeErr e) =>
      some { error := some e, subscribed := true, subscriptionCancelled := true
             workersStarted := false, sweeperStarted := false, registry := [] }
    | .error .nilPanic => none
    | .ok reg =>
      some { error := none, subscribed := true, subscriptionCancelled := false
             workersStarted := true, sweeperStarted := true, registry := reg }

/-! ### Stop (source lines 120-129) -/

/-- The side effects `Stop` performs, in program order. -/
inductive StopAction where
  | cancelSub
  | closeKeepaliveChan
  | waitWorkers
  | dispatchStop (id : String)
  | closeErrChan
deriving DecidableEq

/-- Observable outcome of `Stop`: the returned error and the ordered list
of side effects performed. -/
structure StopResult where
  error : Option String
  actions : List StopAction
deriving DecidableEq

/-- `Stop`: cancel the subscription and remember its error, close the
inbound keepalive channel, wait for the workers, dispatch `go
monitor.Stop()` for every registered monitor, close the error channel,
and return the cancellation error. -/
def stop (cancelErr : Option String) (reg : Registry) : StopResult :=
  { error := cancelErr
    actions :=
      [StopAction.cancelSub, StopAction.closeKeepaliveChan, StopAction.waitWorkers]
        ++ reg.map (fun p => StopAction.dispatchStop p.1)
        ++ [StopAction.closeErrChan] }

/-! ### Concrete fixtures used by witnesses and concrete evaluations -/

/-- A valid agent entity with a 30-second keepalive timeout. -/
def entA : Entity :=
  { id := "a1", entityClass := "agent", organization := "o", environment := "e"
    keepaliveTimeout := 30, deregister := false, lastSeen := 0 }

/-- An entity marked for deregistration. -/
def entDereg : Entity := { entA with id := "a2", deregister := true }

/-- An entity of a non-agent class. -/
def entProxy : Entity := { entA with entityClass := "proxy" }

/-- A failing-keepalive record for `entA` with deadline at Unix second 105. -/
def recA : KeepaliveRecord :=
  { entityID := "a1", organization := "o", environment := "e", time := 105 }

/-- A stored keepalive event for `entA` with check status 1 (still failing). -/
def evKeepFail : Event :=
  { timestamp := 0
    entity := some entA
    check := some
      { name := "keepalive", interval := 30, handlers := ["keepalive"]
        environment := "e", organization := "o", status := 1 } }

/-- An inbound keepalive event for `entA`. -/
def evA : Event := { timestamp := 42, entity := some entA, check := none }

/-! ## Theorems -/

/-! ### Registry helper lemmas -/

theorem lookupReg_insertReg_self (reg : Registry) (id : String) (m : Monitor) :
    lookupReg (insertReg reg id m) id = some m := by
  induction reg with
  | nil => simp [insertReg, lookupReg]
  | cons p rest ih =>
    obtain ⟨k, v⟩ := p
    by_cases h : k = id
    · simp [insertReg, lookupReg, h]
    · simp [insertReg, lookupReg, h, ih]

/-! ### Monitor-synchronisation case lemmas -/

theorem syncMonitor_absent (reg : Registry) (entity : Entity)
    (h : lookupReg reg entity.id = none) :
    syncMonitor reg entity =
      { registry := insertReg reg entity.id
          (monitorNew (some entity) none ((entity.keepaliveTimeout : Int) * second))
        monitor := monitorNew (some entity) none ((entity.keepaliveTimeout : Int) * second)
        stoppedMonitors := [] } := by
  simp [syncMonitor, h, monitorNew]

theorem syncMonitor_stopped (reg : Registry) (entity : Entity) (old : Monitor)
    (h : lookupReg reg entity.id = some old) (hs : old.stopped = true) :
    syncMonitor reg entity =
      { registry := insertReg reg entity.id
          (monitorNew (some entity) none ((entity.keepaliveTimeout : Int) * second))
        monitor := monitorNew (some entity) none ((entity.keepaliveTimeout : Int) * second)
        stoppedMonitors := [] } := by
  simp [syncMonitor, h, hs, monitorNew]

theorem syncMonitor_replace (reg : Registry) (entity : Entity) (old : Monitor)
    (h : lookupReg reg entity.id = some old) (hs : old.stopped = false)
    (ht : old.timeout ≠ (entity.keepaliveTimeout : Int) * second) :
    syncMonitor reg entity =
      { registry := insertReg reg entity.id
          (monitorNew (some entity) none ((entity.keepaliveTimeout : Int) * second))
        monitor := monitorNew (some entity) none ((entity.keepaliveTimeout : Int) * second)
        stoppedMonitors := [old] } := by
  simp [syncMonitor, h, hs, ht]

theorem syncMonitor_reuse (reg : Registry) (entity : Entity) (old : Monitor)
    (h : lookupReg reg entity.id = some old) (hs : old.stopped = false)
    (ht : old.timeout = (entity.keepaliveTimeout : Int) * second) :
    syncMonitor reg entity =
      { registry := reg, monitor := old, stoppedMonitors := [] } := by
  simp [syncMonitor, h, hs, ht]

/-! ### Claim C1 -/

/-- Claim C1: for every valid keepalive event processed by a worker, after
the monitor-synchronisation step the registry maps the event's entity ID
to a monitor whose configured timeout equals the entity's
KeepaliveTimeout in seconds; if no entry existed or the existing monitor
was stopped a new monitor is installed, if the existing monitor's timeout
differed it is stopped and replaced, and otherwise the existing monitor
is reused unchanged. -/
theorem processKeepalives_timeout_convergence (now : Int) (reg : Registry) (e : Event)
    (entity : Entity) (o : RegOracle)
    (hent : e.entity = some entity) (hval : validateEntity entity = none) :
    ∃ sr : SyncResult,
      (processKeepaliveMsg now reg (.ev e) o).synced = some sr ∧
      (processKeepaliveMsg now reg (.ev e) o).registry = sr.registry ∧
      lookupReg sr.registry entity.id = some sr.monitor ∧
      sr.monitor.timeout = (entity.keepaliveTimeout : Int) * second ∧
      (lookupReg reg entity.id = none →
        sr.monitor = monitorNew (some entity) none ((entity.keepaliveTimeout : Int) * second) ∧
        sr.stoppedMonitors = []) ∧
      (∀ old : Monitor, lookupReg reg entity.id = some old → old.stopped = true →
        sr.monitor = monitorNew (some entity) none ((entity.keepaliveTimeout : Int) * second) ∧
        sr.stoppedMonitors = []) ∧
      (∀ old : Monitor, lookupReg reg entity.id = some old → old.stopped = false →
        old.timeout ≠ (entity.keepaliveTimeout : Int) * second →
        sr.monitor = monitorNew (some entity) none ((entity.keepaliveTimeout : Int) * second) ∧
        sr.stoppedMonitors = [old]) ∧
      (∀ old : Monitor, lookupReg reg entity.id = some old → old.stopped = false →
        old.timeout = (entity.keepaliveTimeout : Int) * second →
        sr.monitor = old ∧ sr.registry = reg ∧ sr.stoppedMonitors = []) := by
  have hp : processKeepaliveMsg now reg (.ev e) o =
      { dropped := false
        registry := (syncMonitor reg entity).registry
        regResult := some (handleEntityRegistration now entity o)
        synced := some (syncMonitor reg entity)
        updateDispatched := some e } := by
    simp [processKeepaliveMsg, hent, hval]
  refine ⟨syncMonitor reg entity, by rw [hp], by rw [hp], ?_, ?_, ?_, ?_, ?_, ?_⟩
  · rcases hl : lookupReg reg entity.id with _ | old
    · rw [syncMonitor_absent reg entity hl]
      exact lookupReg_insertReg_self ..
    · cases hs : old.stopped
      · by_cases ht : old.timeout = (entity.keepaliveTimeout : Int) * second
        · rw [syncMonitor_reuse reg entity old hl hs ht]
          exact hl
        · rw [syncMonitor_replace reg entity old hl hs ht]
          exact lookupReg_insertReg_self ..
      · rw [syncMonitor_stopped reg entity old hl hs]
        exact lookupReg_insertReg_self ..
  · rcases hl : lookupReg reg entity.id with _ | old
    · rw [syncMonitor_absent reg entity hl]
      exact rfl
    · cases hs : old.stopped
      · by_cases ht : old.timeout = (entity.keepaliveTimeout : Int) * second
        · rw [syncMonitor_reuse reg entity old hl hs ht]
          exact ht
        · rw [syncMonitor_replace reg entity old hl hs ht]
          exact rfl
      · rw [syncMonitor_stopped reg entity old hl hs]
        exact rfl
  · intro hl
    rw [syncMonitor_absent reg entity hl]
    exact ⟨rfl, rfl⟩
  · intro old hl hs
    rw [syncMonitor_stopped reg entity old hl hs]
    exact ⟨rfl, rfl⟩
  · intro old hl hs ht
    rw [syncMonitor_replace reg entity old hl hs ht]
    exact ⟨rfl, rfl⟩
  · intro old hl hs ht
    rw [syncMonitor_reuse reg entity old hl hs ht]
    exact ⟨rfl, rfl, rfl⟩

/-- Witness for C1: a concrete valid keepalive event for `entA` against the
empty registry installs a fresh monitor with timeout 30 seconds. -/
theorem processKeepalives_timeout_convergence_witness :
    ∃ sr : SyncResult,
      (processKeepaliveMsg 42 [] (.ev evA)
          { getEntity := .ok (some entA), publishErr := none }).synced = some sr ∧
      lookupReg sr.registry entA.id = some sr.monitor ∧
      sr.monitor.timeout = (entA.keepaliveTimeout : Int) * second := by
  obtain ⟨sr, h1, _, h3, h4, _⟩ :=
    processKeepalives_timeout_convergence 42 [] evA entA
      { getEntity := .ok (some entA), publishErr := none } rfl rfl
  exact ⟨sr, h1, h3, h4⟩

/-! ### Claim C2 -/

/-- Claim C2 (failing input): at `now = 100`, recovering the record for
`entA` with deadline `Time = 105` and a stored status-1 keepalive event
installs a monitor whose timeout is the raw `time.Duration` value 5, i.e.
5 nanoseconds — not the 5 seconds (`5 * time.Second`) the claim states:
the source omits the `* time.Second` scaling that the worker path applies. -/
theorem initStep_nanosecond_divergence :
    initStep 100 recA (.ok (some evKeepFail)) [] =
      .ok [("a1", { entity := some entA, event := none, timeout := 5, stopped := false })] ∧
    ¬ ((5 : Int) = 5 * second) := by
  constructor
  · rfl
  · decide

/-! ### Claim C3 -/

/-- Claim C3: for every call of HandleFailure with an entity whose
Deregister flag is true, the Deregistrar is invoked exactly once and its
result returned, no keepalive status-1 event is published on any topic,
and no FailingKeepaliveRecord is written. -/
theorem handleFailure_deregister_halts (now : Int) (entity : Entity) (o : FailureOracle)
    (h : entity.deregister = true) :
    handleFailure now entity o =
      { error := o.deregisterErr, deregisterCalls := 1, published := []
        recordWritten := none } := by
  simp [handleFailure, h]

/-- Witness for C3: the deregistering entity `entDereg` with a concrete
deregistration result. -/
theorem handleFailure_deregister_halts_witness :
    handleFailure 0 entDereg
        { deregisterErr := some "dereg failed", publishErr := none
          updateFailingErr := none } =
      { error := some "dereg failed", deregisterCalls := 1, published := []
        recordWritten := none } :=
  handleFailure_deregister_halts 0 entDereg
    { deregisterErr := some "dereg failed", publishErr := none, updateFailingErr := none }
    rfl

/-! ### Claim C4 -/

/-- Claim C4: for every event with a non-nil entity, HandleUpdate deletes
any persisted FailingKeepaliveRecord for the entity, sets the entity's
LastSeen to the event's Timestamp, persists the updated entity, and
publishes a keepalive event with check status 0 on the raw-events topic;
any store error along the way is returned to the caller. -/
theorem handleUpdate_postcondition (now : Int) (e : Event) (entity : Entity)
    (o : UpdateOracle) (hent : e.entity = some entity) :
    ∃ r : UpdateResult,
      handleUpdate now e o = some r ∧
      r.deleteCalled = true ∧
      (∀ err : String, o.deleteErr = some err → r.error = some err) ∧
      (o.deleteErr = none →
        r.lastSeenSet = true ∧
        (∀ err : String, o.updateErr = some err → r.error = some err) ∧
        (o.updateErr = none →
          r.updateCalledWith = some { entity with lastSeen := e.timestamp } ∧
          r.published = [(Topic.eventRaw,
            { timestamp := now
              entity := some { entity with lastSeen := e.timestamp }
              check := some
                { name := KeepaliveCheckName
                  interval := entity.keepaliveTimeout
                  handlers := [KeepaliveHandlerName]
                  environment := entity.environment
                  organization := entity.organization
                  status := 0 } })] ∧
          r.error = o.publishErr)) := by
  obtain ⟨ts, oe, oc⟩ := e
  obtain rfl : oe = some entity := hent
  obtain ⟨de, ue, pe⟩ := o
  rcases de with _ | derr
  · rcases ue with _ | uerr
    · refine ⟨_, rfl, rfl, ?_, ?_⟩
      · intro err h
        exact nomatch h
      · intro _
        refine ⟨rfl, ?_, ?_⟩
        · intro err h
          exact nomatch h
        · intro _
          exact ⟨rfl, rfl, rfl⟩
    · refine ⟨_, rfl, rfl, ?_, ?_⟩
      · intro err h
        exact nomatch h
      · intro _
        refine ⟨rfl, ?_, ?_⟩
        · intro err h
          exact h
        · intro h
          exact nomatch h
  · refine ⟨_, rfl, rfl, ?_, ?_⟩
    · intro err h
      exact h
    · intro h
      exact nomatch h

/-- Witness for C4: the concrete event `evA` for `entA` with an
error-free store and bus; HandleUpdate succeeds and the record-delete
call was made. -/
theorem handleUpdate_postcondition_witness :
    ∃ r : UpdateResult,
      handleUpdate 50 evA { deleteErr := none, updateErr := none, publishErr := none } =
        some r ∧
      r.deleteCalled = true ∧
      r.updateCalledWith = some { entA with lastSeen := 42 } := by
  obtain ⟨r, h1, h2, _, h4⟩ :=
    handleUpdate_postcondition 50 evA entA
      { deleteErr := none, updateErr := none, publishErr := none } rfl
  obtain ⟨-, -, h5⟩ := h4 rfl
  obtain ⟨h6, -, -⟩ := h5 rfl
  exact ⟨r, h1, h2, h6⟩

/-! ### Claim C5 -/

/-- Claim C5: for every call of HandleFailure with an entity whose
Deregister flag is false, a keepalive event with check name "keepalive",
status 1, handlers ["keepalive"] and interval equal to the entity's
KeepaliveTimeout is published on the raw-events topic, and then a
FailingKeepaliveRecord with deadline now + entity.KeepaliveTimeout
seconds is written; if the publish fails its error is returned and no
record is written. -/
theorem handleFailure_publishes_and_records (now : Int) (entity : Entity)
    (o : FailureOracle) (h : entity.deregister = false) :
    (handleFailure now entity o).deregisterCalls = 0 ∧
    (handleFailure now entity o).published = [(Topic.eventRaw,
      { timestamp := now
        entity := some entity
        check := some
          { name := KeepaliveCheckName
            interval := entity.keepaliveTimeout
            handlers := [KeepaliveHandlerName]
            environment := entity.environment
            organization := entity.organization
            status := 1 } })] ∧
    (∀ err : String, o.publishErr = some err →
      (handleFailure now entity o).error = some err ∧
      (handleFailure now entity o).recordWritten = none) ∧
    (o.publishErr = none →
      (handleFailure now entity o).recordWritten =
        some (entity, now + (entity.keepaliveTimeout : Int)) ∧
      (handleFailure now entity o).error = o.updateFailingErr) := by
  obtain ⟨id, cls, org, env, kt, dereg, ls⟩ := entity
  obtain rfl : dereg = false := h
  obtain ⟨de, pe, ue⟩ := o
  rcases pe with _ | perr
  · refine ⟨rfl, rfl, ?_, ?_⟩
    · intro err he
      exact nomatch he
    · intro _
      exact ⟨rfl, rfl⟩
  · refine ⟨rfl, rfl, ?_, ?_⟩
    · intro err he
      exact ⟨he, rfl⟩
    · intro he
      exact nomatch he

/-- Witness for C5: `entA` (not deregistering) with an error-free bus and
store writes a record with deadline 100 + 30. -/
theorem handleFailure_publishes_and_records_witness :
    (handleFailure 100 entA
        { deregisterErr := none, publishErr := none, updateFailingErr := none }).deregisterCalls = 0 ∧
    (handleFailure 100 entA
        { deregisterErr := none, publishErr := none, updateFailingErr := none }).recordWritten =
      some (entA, 100 + (entA.keepaliveTimeout : Int)) := by
  obtain ⟨h1, -, -, h4⟩ :=
    handleFailure_publishes_and_records 100 entA
      { deregisterErr := none, publishErr := none, updateFailingErr := none } rfl
  obtain ⟨h5, -⟩ := h4 rfl
  exact ⟨h1, h5⟩

/-! ### Claim C6 -/

/-- Claim C6: for every persisted FailingKeepaliveRecord processed during
initFromStore, if the store holds no current keepalive event for the
entity, or holds one whose check status is 0, no monitor is installed for
that entity and recovery proceeds to the next record. -/
theorem initLoop_skip_rules (now : Int) (r : KeepaliveRecord)
    (rest : List KeepaliveRecord)
    (lookup : KeepaliveRecord → Except String (Option Event)) (reg : Registry)
    (h : lookup r = .ok none ∨
      ∃ ev : Event, ∃ c : Check, lookup r = .ok (some ev) ∧ ev.check = some c ∧
        c.status = 0) :
    initLoop now (r :: rest) lookup reg = initLoop now rest lookup reg := by
  rcases h with h | ⟨ev, c, h, hc, hs⟩
  · simp [initLoop, initStep, h]
  · simp [initLoop, initStep, h, hc, hs]

/-- Witness for C6: a store with no current keepalive event for `recA`
skips the record and finishes with an empty registry. -/
theorem initLoop_skip_rules_witness :
    initLoop 100 [recA] (fun _ => .ok none) [] =
      initLoop 100 [] (fun _ => .ok none) [] :=
  initLoop_skip_rules 100 recA [] (fun _ => .ok none) [] (Or.inl rfl)

/-! ### Claim C7 -/

/-- Claim C7: Start returns an error whenever the bus subscription or the
store recovery fails; when recovery is the step that fails, the
just-created subscription is cancelled before Start returns the recovery
error, and neither the worker pool nor the sweeper is launched. -/
theorem start_failure_unwinding (subscribeErr : Option String) (now : Int)
    (getFailing : Except String (List KeepaliveRecord))
    (lookup : KeepaliveRecord → Except String (Option Event)) :
    (∀ e : String, subscribeErr = some e →
      start subscribeErr now getFailing lookup =
        some { error := some e, subscribed := false, subscriptionCancelled := false
               workersStarted := false, sweeperStarted := false, registry := [] }) ∧
    (∀ e : String, subscribeErr = none →
      initFromStore now getFailing lookup = .error (.storeErr e) →
      start subscribeErr now getFailing lookup =
        some { error := some e, subscribed := true, subscriptionCancelled := true
               workersStarted := false, sweeperStarted := false, registry := [] }) := by
  constructor
  · intro e he
    subst he
    rfl
  · intro e he hinit
    subst he
    simp [start, hinit]

/-- Witness for C7: a subscription refusal is returned as is, and a
failing `GetFailingKeepalives` read makes Start cancel the subscription
and return the store error without launching workers or sweeper. -/
theorem start_failure_unwinding_witness :
    start (some "bus refused") 0 (.ok []) (fun _ => .ok none) =
      some { error := some "bus refused", subscribed := false
             subscriptionCancelled := false, workersStarted := false
             sweeperStarted := false, registry := [] } ∧
    start none 0 (.error "store down") (fun _ => .ok none) =
      some { error := some "store down", subscribed := true
             subscriptionCancelled := true, workersStarted := false
             sweeperStarted := false, registry := [] } := by
  constructor
  · exact (start_failure_unwinding (some "bus refused") 0 (.ok [])
      (fun _ => .ok none)).1 "bus refused" rfl
  · exact (start_failure_unwinding none 0 (.error "store down")
      (fun _ => .ok none)).2 "store down" rfl rfl

/-! ### Claim C8 -/

/-- Claim C8: for every orchestrator on which Start has succeeded, Stop
cancels the subscription, closes the inbound keepalive channel, waits for
all workers to finish, dispatches a stop of every registered monitor
asynchronously, closes the error channel, and returns the subscription
cancellation error (nil if cancellation succeeded) even though the rest
of the shutdown has completed. -/
theorem stop_semantics (cancelErr : Option String) (reg : Registry) :
    (stop cancelErr reg).error = cancelErr ∧
    (stop cancelErr reg).actions.take 3 =
      [StopAction.cancelSub, StopAction.closeKeepaliveChan, StopAction.waitWorkers] ∧
    (∀ p ∈ reg, StopAction.dispatchStop p.1 ∈ (stop cancelErr reg).actions) ∧
    (stop cancelErr reg).actions.getLast? = some StopAction.closeErrChan := by
  refine ⟨rfl, rfl, ?_, ?_⟩
  · intro p hp
    simp only [stop, List.mem_append, List.mem_cons, List.mem_map]
    exact Or.inl (Or.inr ⟨p, hp, rfl⟩)
  · rw [show (stop cancelErr reg).actions =
        ([StopAction.cancelSub, StopAction.closeKeepaliveChan, StopAction.waitWorkers] ++
          reg.map (fun p => StopAction.dispatchStop p.1)) ++ [StopAction.closeErrChan] from rfl]
    rw [List.getLast?_append_cons]
    rfl

/-- Witness for C8: stopping with one registered monitor and a failing
cancellation still records the dispatch of that monitor's stop, and the
cancellation error is the returned one. -/
theorem stop_semantics_witness :
    (stop (some "cancel failed") [("a1", monitorNew (some entA) none 5)]).error =
      some "cancel failed" ∧
    StopAction.dispatchStop "a1" ∈
      (stop (some "cancel failed") [("a1", monitorNew (some entA) none 5)]).actions := by
  obtain ⟨h1, -, h3, -⟩ :=
    stop_semantics (some "cancel failed") [("a1", monitorNew (some entA) none 5)]
  exact ⟨h1, h3 ("a1", monitorNew (some entA) none 5) (by simp)⟩

/-! ### Claim C9 -/

/-- Claim C9: for every valid keepalive event whose entity has class
"agent" and is absent from the store, exactly one registration event is
published on the event topic with check name "registration", status 1,
handlers ["registration"] and interval equal to the entity's
KeepaliveTimeout; for an entity of any other class no store lookup and no
publish occurs; a lookup or publish error does not prevent the subsequent
monitor synchronisation for the event. -/
theorem registration_side_effect (now : Int) (entity : Entity) (o : RegOracle)
    (reg : Registry) (e : Event) :
    (entity.entityClass = EntityAgentClass → o.getEntity = .ok none →
      handleEntityRegistration now entity o =
        { error := o.publishErr
          lookups := 1
          published := [(Topic.event,
            { timestamp := now
              entity := some entity
              check := some
                { name := RegistrationCheckName
                  interval := entity.keepaliveTimeout
                  handlers := [RegistrationHandlerName]
                  environment := entity.environment
                  organization := entity.organization
                  status := 1 } })] }) ∧
    (entity.entityClass ≠ EntityAgentClass →
      handleEntityRegistration now entity o =
        { error := none, lookups := 0, published := [] }) ∧
    (e.entity = some entity → validateEntity entity = none →
      (processKeepaliveMsg now reg (.ev e) o).synced = some (syncMonitor reg entity) ∧
      (processKeepaliveMsg now reg (.ev e) o).registry = (syncMonitor reg entity).registry) := by
  refine ⟨?_, ?_, ?_⟩
  · intro hcls hget
    simp [handleEntityRegistration, hcls, hget, createRegistrationEvent]
  · intro hcls
    simp [handleEntityRegistration, hcls]
  · intro hent hval
    constructor
    · simp [processKeepaliveMsg, hent, hval]
    · simp [processKeepaliveMsg, hent, hval]

/-- Witness for C9: the agent entity `entA`, absent from the store with a
healthy bus, publishes exactly one registration event; the non-agent
`entProxy` performs no lookup; and with an erroring lookup the monitor
synchronisation for `evA` still happens. -/
theorem registration_side_effect_witness :
    handleEntityRegistration 42 entA { getEntity := .ok none, publishErr := none } =
      { error := none
        lookups := 1
        published := [(Topic.event,
          { timestamp := 42
            entity := some entA
            check := some
              { name := RegistrationCheckName
                interval := entA.keepaliveTimeout
                handlers := [RegistrationHandlerName]
                environment := entA.environment
                organization := entA.organization
                status := 1 } })] } ∧
    handleEntityRegistration 42 entProxy { getEntity := .ok none, publishErr := none } =
      { error := none, lookups := 0, published := [] } ∧
    (processKeepaliveMsg 42 [] (.ev evA)
        { getEntity := .error "lookup failed", publishErr := none }).synced =
      some (syncMonitor [] entA) := by
  refine ⟨?_, ?_, ?_⟩
  · exact (registration_side_effect 42 entA
      { getEntity := .ok none, publishErr := none } [] evA).1 rfl rfl
  · exact (registration_side_effect 42 entProxy
      { getEntity := .ok none, publishErr := none } [] evA).2.1 (by decide)
  · exact ((registration_side_effect 42 entA
      { getEntity := .error "lookup failed", publishErr := none } [] evA).2.2 rfl rfl).1

/-! ### Claim C10 -/

/-- Claim C10: for every event, if deleting the FailingKeepaliveRecord
returns an error, HandleUpdate returns that error with the entity
unchanged (LastSeen not set to the event timestamp), no entity update is
written to the store, and no event is published on any topic. -/
theorem handleUpdate_early_error (now : Int) (e : Event) (entity : Entity)
    (o : UpdateOracle) (err : String)
    (hent : e.entity = some entity) (hdel : o.deleteErr = some err) :
    handleUpdate now e o =
      some { error := some err, deleteCalled := true, lastSeenSet := false
             updateCalledWith := none, published := [] } := by
  simp [handleUpdate, hent, hdel]

/-- Witness for C10: a concrete delete failure on `evA` is returned with
no LastSeen assignment, no entity write and no publish. -/
theorem handleUpdate_early_error_witness :
    handleUpdate 50 evA
        { deleteErr := some "etcd unavailable", updateErr := none, publishErr := none } =
      some { error := some "etcd unavailable", deleteCalled := true
             lastSeenSet := false, updateCalledWith := none, published := [] } :=
  handleUpdate_early_error 50 evA entA
    { deleteErr := some "etcd unavailable", updateErr := none, publishErr := none }
    "etcd unavailable" rfl rfl

end Keepalived
